import Mathlib

/-!
# AOI Analysis Pipeline — verification of the natural-language specification

Shallow embedding of the AI-Asset-Mapping repository.  The frontend React
code (`frontend/src/App.jsx`, `AOIMapper`) is embedded directly from the
source.  The backend pipeline (FastAPI + Google Earth Engine) is not part of
the source tree — only its README and interface description exist — so its
components are modelled from the specification, as marked in the doc comments.
-/

namespace AOIMapping

/-! ## Frontend code (from `src`: App.jsx / AOIMapper.jsx) -/

/-- From `zoomFromRadiusMeters` in AOIMapper.jsx: heuristic zoom based on
radius.  Radii are modelled as rationals. -/
def zoomFromRadiusMeters (r : ℚ) : ℕ :=
  if r ≥ 15000 then 10
  else if r ≥ 8000 then 11
  else if r ≥ 4000 then 12
  else if r ≥ 2000 then 13
  else 14

/-- A Leaflet path style as produced by `styleByClass`. -/
structure LeafletStyle where
  color : String
  fillColor : String
  fillOpacity : ℚ
  deriving DecidableEq, Repr

/-- The `properties` object of a GeoJSON feature, as read by the frontend:
it may or may not carry a `class` string. -/
structure LeafletProps where
  cls : Option String
  deriving DecidableEq, Repr

/-- A GeoJSON feature as read by the frontend; `properties` may be absent. -/
structure LeafletFeature where
  properties : Option LeafletProps
  deriving DecidableEq, Repr

/-- ASCII lower-casing of one character, as `toLowerCase` acts on the class
names used here. -/
def lowerChar (c : Char) : Char :=
  if c.isUpper then Char.ofNat (c.toNat + 32) else c

/-- ASCII lower-casing of a string (JS `String.prototype.toLowerCase` on the
ASCII class names used by the frontend). -/
def lowerString (s : String) : String :=
  ⟨s.data.map lowerChar⟩

/-- The class string read by `styleByClass`, i.e.
`(feature?.properties?.class || "").toLowerCase()`: the optional chaining
yields the empty string when any link is absent. -/
def featureClassName (feature : Option LeafletFeature) : String :=
  lowerString (((feature.bind (fun f => f.properties)).bind (fun p => p.cls)).getD "")

/-- From `styleByClass` in App.jsx: per-class styles, defaulting to black. -/
def styleByClass (feature : Option LeafletFeature) : LeafletStyle :=
  let cls := featureClassName feature
  if cls = "water" then ⟨"#1e90ff", "#1e90ff", 0.5⟩
  else if cls = "agriculture" then ⟨"#8b4513", "#8b4513", 0.45⟩
  else if cls = "forest" then ⟨"#228b22", "#228b22", 0.45⟩
  else if cls = "infrastructure" then ⟨"#808080", "#808080", 0.35⟩
  else ⟨"#000", "#000", 0.2⟩

/-- From `getLayerColor` in AOIMapper.jsx: the switch over the layer class. -/
def getLayerColor (layerClass : String) : String :=
  if layerClass = "water" then "#1e90ff"
  else if layerClass = "agriculture" then "#8b4513"
  else if layerClass = "forest" then "#228b22"
  else if layerClass = "infrastructure" then "#808080"
  else "#000000"

/-- The four class names known to the frontend styling functions. -/
def knownClassNames : List String := ["water", "agriculture", "forest", "infrastructure"]

/-- C9: `zoomFromRadiusMeters` is monotonically non-increasing — for radii
`r1 ≤ r2` the zoom at `r2` is at most the zoom at `r1` — and its result is
always one of 10, 11, 12, 13, 14. -/
theorem zoomFromRadiusMeters_antitone_and_range (r1 r2 : ℚ) (h : r1 ≤ r2) :
    zoomFromRadiusMeters r2 ≤ zoomFromRadiusMeters r1 ∧
    zoomFromRadiusMeters r1 ∈ ([10, 11, 12, 13, 14] : List ℕ) := by
  unfold zoomFromRadiusMeters
  constructor
  · split_ifs <;> first | omega | linarith
  · split_ifs <;> simp

/-- Witness for C9 at concrete radii 3000 ≤ 16000. -/
theorem zoomFromRadiusMeters_antitone_and_range_witness :
    zoomFromRadiusMeters 16000 ≤ zoomFromRadiusMeters 3000 ∧
    zoomFromRadiusMeters 3000 ∈ ([10, 11, 12, 13, 14] : List ℕ) :=
  zoomFromRadiusMeters_antitone_and_range 3000 16000 (by norm_num)

/-- C10: frontend feature styling is total — a feature whose (lower-cased)
class is outside the four known classes gets the default black style, a
string outside the four known classes gets the default black color, and each
of the four known classes gets its fixed color in both functions. -/
theorem styling_total_and_fixed_colors (f : Option LeafletFeature) (s : String) :
    (featureClassName f ∉ knownClassNames → styleByClass f = ⟨"#000", "#000", 0.2⟩) ∧
    (s ∉ knownClassNames → getLayerColor s = "#000000") ∧
    (featureClassName f = "water" → styleByClass f = ⟨"#1e90ff", "#1e90ff", 0.5⟩) ∧
    (featureClassName f = "agriculture" → styleByClass f = ⟨"#8b4513", "#8b4513", 0.45⟩) ∧
    (featureClassName f = "forest" → styleByClass f = ⟨"#228b22", "#228b22", 0.45⟩) ∧
    (featureClassName f = "infrastructure" → styleByClass f = ⟨"#808080", "#808080", 0.35⟩) ∧
    getLayerColor "water" = "#1e90ff" ∧
    getLayerColor "agriculture" = "#8b4513" ∧
    getLayerColor "forest" = "#228b22" ∧
    getLayerColor "infrastructure" = "#808080" := by
  refine ⟨fun h => ?_, fun h => ?_, fun h => ?_, fun h => ?_, fun h => ?_, fun h => ?_,
    ?_, ?_, ?_, ?_⟩ <;>
    simp_all [styleByClass, getLayerColor, knownClassNames]

/-- Witness for C10: a feature whose class string is "Road" (not a known
class even after lower-casing) is styled with the default black style, and
an unknown layer class string gets the default black color. -/
theorem styling_total_and_fixed_colors_witness :
    styleByClass (some ⟨some ⟨some "Road"⟩⟩) = ⟨"#000", "#000", 0.2⟩ ∧
    getLayerColor "road" = "#000000" :=
  ⟨(styling_total_and_fixed_colors (some ⟨some ⟨some "Road"⟩⟩) "road").1 (by decide),
   (styling_total_and_fixed_colors (some ⟨some ⟨some "Road"⟩⟩) "road").2.1 (by decide)⟩

/-! ## Backend pipeline — data model and Geometry Builder

Modelled from the spec: the backend FastAPI pipeline (Geometry Builder,
Composite Fetcher, Spectral Classifier, Vectorizer, Area Aggregator,
Analysis Orchestrator) is described in the repository only by its READMEs and
the specification; its Python source is not in the source tree.  The
definitions below follow the spec's component design (§3, §4, §7). -/

/-- Modelled from the spec: the error taxonomy of §7; each failure kind
carries exactly one human-readable reason. -/
inductive PipelineError where
  | validationError (reason : String)
  | dataUnavailable (reason : String)
  | fetchTimeout (reason : String)
  | internalError (reason : String)
  deriving DecidableEq, Repr

/-- Modelled from the spec: an AOI analysis request (§3). -/
structure AOIRequest where
  name : String
  latitude : ℚ
  longitude : ℚ
  area_sq_m : ℚ
  deriving DecidableEq, Repr

/-- Modelled from the spec: the AOI polygon, an ordered list of vertices
closing on itself.  Vertices are modelled in a local tangent plane at the
request's center (meters east/north), which the geodesic construction
approaches for the radii at hand; the closure and round-trip laws are stated
on this model. -/
structure AOIGeometry where
  vertices : List (ℝ × ℝ)

/-- Number of equally spaced bearings emitted by the Geometry Builder
(`N ≈ 64` in the spec). -/
def numBearings : ℕ := 64

/-- The radius `r = sqrt(area_sq_m / π)` of the AOI circle. -/
noncomputable def aoiRadius (area : ℚ) : ℝ :=
  Real.sqrt ((area : ℝ) / Real.pi)

/-- The destination vertex at bearing index `k` of `N`, at distance `r`
from the center, in the tangent-plane model. -/
noncomputable def aoiVertex (r : ℝ) (N : ℕ) (k : ℕ) : ℝ × ℝ :=
  (r * Real.cos (2 * Real.pi * k / N), r * Real.sin (2 * Real.pi * k / N))

/-- The list of `m` consecutive vertices starting at bearing index `i`. -/
noncomputable def vertsFrom (r : ℝ) (N : ℕ) : ℕ → ℕ → List (ℝ × ℝ)
  | _, 0 => []
  | i, m + 1 => aoiVertex r N i :: vertsFrom r N (i + 1) m

/-- Modelled from the spec: the Geometry Builder (§4.1).  Validates
`area_sq_m > 0` and the coordinate bounds, failing with `ValidationError`
otherwise; then emits `N + 1` vertices at equally spaced bearings 0°..360°
(the last coincides with the first, closing the ring). -/
noncomputable def buildAOIGeometry (req : AOIRequest) : Except PipelineError AOIGeometry :=
  if req.area_sq_m ≤ 0 then
    .error (.validationError "area_sq_m must be positive")
  else if req.latitude < -90 ∨ 90 < req.latitude then
    .error (.validationError "latitude out of range")
  else if req.longitude < -180 ∨ 180 < req.longitude then
    .error (.validationError "longitude out of range")
  else
    .ok ⟨vertsFrom (aoiRadius req.area_sq_m) numBearings 0 (numBearings + 1)⟩

lemma vertsFrom_length (r : ℝ) (N : ℕ) : ∀ m i, (vertsFrom r N i m).length = m
  | 0, _ => rfl
  | m + 1, i => by simp [vertsFrom, vertsFrom_length r N m]

lemma vertsFrom_getLast? (r : ℝ) (N : ℕ) :
    ∀ m i, (vertsFrom r N i (m + 1)).getLast? = some (aoiVertex r N (i + m))
  | 0, i => rfl
  | m + 1, i => by
    have h2 : vertsFrom r N i (m + 1 + 1)
        = aoiVertex r N i :: aoiVertex r N (i + 1) :: vertsFrom r N (i + 1 + 1) m := rfl
    have h3 : aoiVertex r N (i + 1) :: vertsFrom r N (i + 1 + 1) m
        = vertsFrom r N (i + 1) (m + 1) := rfl
    rw [h2, List.getLast?_cons_cons, h3, vertsFrom_getLast? r N m (i + 1)]
    have harg : i + 1 + m = i + (m + 1) := by omega
    rw [harg]

/-- C4: the Geometry Builder raises `ValidationError` exactly when
`area_sq_m ≤ 0`, latitude is outside [-90, 90], or longitude is outside
[-180, 180]; every error it raises is a `ValidationError`; and on every
valid request — any strictly positive `area_sq_m` — it produces a closed
AOIGeometry: `numBearings + 1 ≥ 33` vertices whose first and last coincide. -/
theorem buildAOIGeometry_validation (req : AOIRequest) :
    ((∃ s, buildAOIGeometry req = .error (.validationError s)) ↔
      (req.area_sq_m ≤ 0 ∨ req.latitude < -90 ∨ 90 < req.latitude ∨
        req.longitude < -180 ∨ 180 < req.longitude)) ∧
    (∀ e, buildAOIGeometry req = .error e → ∃ s, e = .validationError s) ∧
    (∀ g, buildAOIGeometry req = .ok g →
      g.vertices.length = numBearings + 1 ∧
      32 ≤ numBearings ∧
      g.vertices.head? = some (aoiRadius req.area_sq_m, 0) ∧
      g.vertices.getLast? = some (aoiRadius req.area_sq_m, 0)) := by
  unfold buildAOIGeometry
  split_ifs with h1 h2 h3
  · refine ⟨⟨fun _ => Or.inl h1, fun _ => ⟨_, rfl⟩⟩, ?_, ?_⟩
    · intro e he
      injection he with h
      exact ⟨_, h.symm⟩
    · intro g hg
      cases hg
  · refine ⟨⟨fun _ => Or.inr (by tauto), fun _ => ⟨_, rfl⟩⟩, ?_, ?_⟩
    · intro e he
      injection he with h
      exact ⟨_, h.symm⟩
    · intro g hg
      cases hg
  · refine ⟨⟨fun _ => by tauto, fun _ => ⟨_, rfl⟩⟩, ?_, ?_⟩
    · intro e he
      injection he with h
      exact ⟨_, h.symm⟩
    · intro g hg
      cases hg
  · refine ⟨?_, ?_, ?_⟩
    · constructor
      · intro hex
        obtain ⟨s, hs⟩ := hex
        cases hs
      · intro hcond
        exfalso
        push_neg at h1 h2 h3
        rcases hcond with h | h | h | h | h <;> linarith [h1, h2.1, h2.2, h3.1, h3.2]
    · intro e he
      cases he
    intro g hg
    have hinj : AOIGeometry.mk (vertsFrom (aoiRadius req.area_sq_m) numBearings 0
        (numBearings + 1)) = g := by injection hg
    subst hinj
    have hhead : aoiVertex (aoiRadius req.area_sq_m) numBearings 0
        = (aoiRadius req.area_sq_m, 0) := by
      simp [aoiVertex]
    have hlast : aoiVertex (aoiRadius req.area_sq_m) numBearings (0 + numBearings)
        = (aoiRadius req.area_sq_m, 0) := by
      unfold aoiVertex
      have : 2 * Real.pi * (64 : ℕ) / (64 : ℕ) = 2 * Real.pi := by
        push_cast
        ring
      simp [numBearings, this, Real.cos_two_pi, Real.sin_two_pi]
    refine ⟨vertsFrom_length _ _ _ _, by norm_num [numBearings], ?_, ?_⟩
    · rw [show vertsFrom (aoiRadius req.area_sq_m) numBearings 0 (numBearings + 1)
          = aoiVertex (aoiRadius req.area_sq_m) numBearings 0
            :: vertsFrom (aoiRadius req.area_sq_m) numBearings 1 numBearings from rfl]
      simp [hhead]
    · rw [vertsFrom_getLast?, hlast]

/-- Witness for C4 at the spec's example request: a positive area and
in-range coordinates yield no validation error. -/
theorem buildAOIGeometry_validation_witness :
    ¬ ((5000000 : ℚ) ≤ 0 ∨ (17.385 : ℚ) < -90 ∨ (90 : ℚ) < 17.385 ∨
        (78.4867 : ℚ) < -180 ∨ (180 : ℚ) < 78.4867) ∧
    ∀ s, buildAOIGeometry ⟨"TestArea", 17.385, 78.4867, 5000000⟩
      ≠ .error (.validationError s) := by
  have h := (buildAOIGeometry_validation ⟨"TestArea", 17.385, 78.4867, 5000000⟩).1
  constructor
  · norm_num
  · intro s hs
    have : (5000000 : ℚ) ≤ 0 ∨ (17.385 : ℚ) < -90 ∨ (90 : ℚ) < 17.385 ∨
        (78.4867 : ℚ) < -180 ∨ (180 : ℚ) < 78.4867 := h.mp ⟨s, hs⟩
    norm_num at this

/-! ## Area Aggregator — total area of the AOI polygon (C1) -/

/-- One signed cross term of the shoelace area formula. -/
noncomputable def crossTerm (p q : ℝ × ℝ) : ℝ := p.1 * q.2 - q.1 * p.2

/-- Sum of shoelace cross terms over consecutive vertex pairs. -/
noncomputable def crossSum : List (ℝ × ℝ) → ℝ
  | p :: q :: rest => crossTerm p q + crossSum (q :: rest)
  | _ => 0

/-- Modelled from the spec: the Area Aggregator's authoritative
`total_area_sq_m` (§4.5) — the area of the AOI polygon itself, computed here
by the shoelace formula on the tangent-plane vertices. -/
noncomputable def totalAreaSqM (g : AOIGeometry) : ℝ := crossSum g.vertices / 2

lemma crossSum_cons_cons (p q : ℝ × ℝ) (l : List (ℝ × ℝ)) :
    crossSum (p :: q :: l) = crossTerm p q + crossSum (q :: l) := rfl

lemma crossTerm_aoiVertex (r : ℝ) {N : ℕ} (hN : N ≠ 0) (i : ℕ) :
    crossTerm (aoiVertex r N i) (aoiVertex r N (i + 1))
      = r ^ 2 * Real.sin (2 * Real.pi / N) := by
  have hNR : (N : ℝ) ≠ 0 := Nat.cast_ne_zero.mpr hN
  have key : 2 * Real.pi * ((i : ℕ) + 1 : ℕ) / N - 2 * Real.pi * (i : ℕ) / N
      = 2 * Real.pi / N := by
    push_cast
    field_simp
    ring
  rw [← key, Real.sin_sub]
  simp only [crossTerm, aoiVertex]
  ring

lemma crossSum_vertsFrom (r : ℝ) {N : ℕ} (hN : N ≠ 0) :
    ∀ m i, crossSum (vertsFrom r N i (m + 1))
      = m * (r ^ 2 * Real.sin (2 * Real.pi / N))
  | 0, i => by simp [vertsFrom, crossSum]
  | m + 1, i => by
    have h2 : vertsFrom r N i (m + 1 + 1)
        = aoiVertex r N i :: vertsFrom r N (i + 1) (m + 1) := rfl
    have h3 : vertsFrom r N (i + 1) (m + 1)
        = aoiVertex r N (i + 1) :: vertsFrom r N (i + 1 + 1) m := rfl
    rw [h2, h3, crossSum_cons_cons, ← h3, crossSum_vertsFrom r hN m (i + 1),
      crossTerm_aoiVertex r hN i]
    push_cast
    ring

/-- C1: geometry construction and area computation round-trip.  For a valid
request, `π·r²` with `r = sqrt(area_sq_m/π)` recovers the requested area
exactly, and the total area computed from the constructed AOIGeometry equals
`π·r²` — hence the requested `area_sq_m` — within the bounded relative
tolerance `π²/4096` coming from the 64-gon approximation of the circle. -/
theorem totalArea_roundTrip (req : AOIRequest) (g : AOIGeometry)
    (hpos : 0 < req.area_sq_m)
    (hok : buildAOIGeometry req = .ok g) :
    Real.pi * aoiRadius req.area_sq_m ^ 2 = (req.area_sq_m : ℝ) ∧
    |totalAreaSqM g - Real.pi * aoiRadius req.area_sq_m ^ 2|
      ≤ Real.pi ^ 3 / 4096 * aoiRadius req.area_sq_m ^ 2 ∧
    |totalAreaSqM g - (req.area_sq_m : ℝ)|
      ≤ Real.pi ^ 2 / 4096 * (req.area_sq_m : ℝ) := by
  set r := aoiRadius req.area_sq_m with hrdef
  have hareaR : (0 : ℝ) < (req.area_sq_m : ℝ) := by exact_mod_cast hpos
  have hr2 : r ^ 2 = (req.area_sq_m : ℝ) / Real.pi := by
    rw [hrdef, aoiRadius, Real.sq_sqrt (div_nonneg hareaR.le Real.pi_pos.le)]
  have hpart1 : Real.pi * r ^ 2 = (req.area_sq_m : ℝ) := by
    rw [hr2]
    field_simp
  -- extract the constructed vertex list from the success of the builder
  have hg : g = ⟨vertsFrom r numBearings 0 (numBearings + 1)⟩ := by
    unfold buildAOIGeometry at hok
    split_ifs at hok with h1 h2 h3
    injection hok with h
    exact h.symm
  -- the polygon area in closed form
  have hA : totalAreaSqM g = 32 * r ^ 2 * Real.sin (Real.pi / 32) := by
    rw [hg]
    show crossSum (vertsFrom r numBearings 0 (numBearings + 1)) / 2 = _
    rw [crossSum_vertsFrom r (by norm_num [numBearings]) numBearings 0]
    have hang : 2 * Real.pi / (numBearings : ℝ) = Real.pi / 32 := by
      norm_num [numBearings]
      ring
    rw [hang]
    norm_num [numBearings]
    ring
  set x := Real.pi / 32 with hxdef
  have hx0 : 0 < x := by positivity
  have hx1 : x ≤ 1 := by
    have := Real.pi_le_four
    rw [hxdef]
    linarith
  have hsinlt : Real.sin x < x := Real.sin_lt hx0
  have hsingt : x - x ^ 3 / 4 < Real.sin x := Real.sin_gt_sub_cube hx0 hx1
  have hr2nn : (0 : ℝ) ≤ r ^ 2 := sq_nonneg r
  have heq : Real.pi * r ^ 2 = 32 * r ^ 2 * x := by
    rw [hxdef]
    ring
  have key1 : totalAreaSqM g - Real.pi * r ^ 2 = 32 * r ^ 2 * (Real.sin x - x) := by
    rw [hA, heq]
    ring
  have hxcube : 32 * (x ^ 3 / 4) * r ^ 2 = Real.pi ^ 3 / 4096 * r ^ 2 := by
    rw [hxdef]
    ring
  have habs1 : |totalAreaSqM g - Real.pi * r ^ 2| ≤ Real.pi ^ 3 / 4096 * r ^ 2 := by
    rw [key1, abs_le]
    constructor
    · have hmul : 32 * r ^ 2 * (-(x ^ 3 / 4)) ≤ 32 * r ^ 2 * (Real.sin x - x) := by
        apply mul_le_mul_of_nonneg_left _ (by positivity)
        linarith
      calc -(Real.pi ^ 3 / 4096 * r ^ 2) = 32 * r ^ 2 * (-(x ^ 3 / 4)) := by
            rw [← hxcube]; ring
        _ ≤ 32 * r ^ 2 * (Real.sin x - x) := hmul
    · have hmul : 32 * r ^ 2 * (Real.sin x - x) ≤ 0 := by
        apply mul_nonpos_of_nonneg_of_nonpos (by positivity)
        linarith
      have : (0 : ℝ) ≤ Real.pi ^ 3 / 4096 * r ^ 2 := by positivity
      linarith
  refine ⟨hpart1, habs1, ?_⟩
  calc |totalAreaSqM g - (req.area_sq_m : ℝ)|
      = |totalAreaSqM g - Real.pi * r ^ 2| := by rw [hpart1]
    _ ≤ Real.pi ^ 3 / 4096 * r ^ 2 := habs1
    _ = Real.pi ^ 2 / 4096 * (Real.pi * r ^ 2) := by ring
    _ = Real.pi ^ 2 / 4096 * (req.area_sq_m : ℝ) := by rw [hpart1]

lemma buildAOIGeometry_example :
    buildAOIGeometry ⟨"TestArea", 17.385, 78.4867, 5000000⟩
      = .ok ⟨vertsFrom (aoiRadius 5000000) numBearings 0 (numBearings + 1)⟩ := by
  unfold buildAOIGeometry
  rw [if_neg (by norm_num), if_neg (by norm_num), if_neg (by norm_num)]

/-- Witness for C1 at the spec's example request (area 5·10⁶ m²). -/
theorem totalArea_roundTrip_witness :
    |totalAreaSqM ⟨vertsFrom (aoiRadius 5000000) numBearings 0 (numBearings + 1)⟩
        - ((5000000 : ℚ) : ℝ)|
      ≤ Real.pi ^ 2 / 4096 * ((5000000 : ℚ) : ℝ) :=
  (totalArea_roundTrip ⟨"TestArea", 17.385, 78.4867, 5000000⟩
    ⟨vertsFrom (aoiRadius 5000000) numBearings 0 (numBearings + 1)⟩
    (by norm_num) buildAOIGeometry_example).2.2

/-! ## Spectral Classifier (C2, C5, C6) -/

/-- Modelled from the spec: one cell of the RasterComposite (§3) — per-band
reflectance values and a validity flag. -/
structure SpectralCell where
  red : ℚ
  green : ℚ
  blue : ℚ
  nir : ℚ
  swir : ℚ
  valid : Bool
  deriving DecidableEq, Repr

/-- Land-cover classes assigned by the Spectral Classifier (§3). -/
inductive LandCoverClass where
  | water
  | agriculture
  | forest
  | infrastructure
  | unclassified
  deriving DecidableEq, Repr

/-- Modelled from the spec: the fixed, configurable classification
thresholds (§4.3, §9). -/
structure ClassifierConfig where
  ndwiWater : ℚ
  ndbiBuilt : ℚ
  ndviForest : ℚ
  ndviVeg : ℚ
  deriving DecidableEq, Repr

/-- NDWI (water) from (green, NIR). -/
def ndwi (c : SpectralCell) : ℚ := (c.green - c.nir) / (c.green + c.nir)

/-- NDVI (vegetation) from (NIR, red). -/
def ndvi (c : SpectralCell) : ℚ := (c.nir - c.red) / (c.nir + c.red)

/-- Built-up index (infrastructure) from (SWIR, NIR). -/
def ndbi (c : SpectralCell) : ℚ := (c.swir - c.nir) / (c.swir + c.nir)

/-- Modelled from the spec: per-cell classification with the precedence
order of §4.3 — Water first, then Infrastructure, then vegetation split
into Forest vs. Agriculture by the secondary NDVI threshold; invalid cells
and cells passing no threshold are Unclassified. -/
def classifyCell (cfg : ClassifierConfig) (c : SpectralCell) : LandCoverClass :=
  if c.valid = false then .unclassified
  else if cfg.ndwiWater ≤ ndwi c then .water
  else if cfg.ndbiBuilt ≤ ndbi c then .infrastructure
  else if cfg.ndviForest ≤ ndvi c then .forest
  else if cfg.ndviVeg ≤ ndvi c then .agriculture
  else .unclassified

/-- C2: every valid cell is assigned exactly one class, and a cell is
Unclassified exactly when it was invalid in the source composite or failed
all classification predicates. -/
theorem classifyCell_exclusive_unclassified (cfg : ClassifierConfig) (c : SpectralCell) :
    (∃! cls, classifyCell cfg c = cls) ∧
    (classifyCell cfg c = .unclassified ↔
      (c.valid = false ∨
        (ndwi c < cfg.ndwiWater ∧ ndbi c < cfg.ndbiBuilt ∧
          ndvi c < cfg.ndviForest ∧ ndvi c < cfg.ndviVeg))) := by
  refine ⟨⟨classifyCell cfg c, rfl, fun y hy => hy.symm⟩, ?_⟩
  unfold classifyCell
  split_ifs with h1 h2 h3 h4 h5 <;>
    simp_all [not_le]

/-- C5: the classifier applies its predicates in a fixed precedence order —
a water-positive valid cell is Water regardless of the other indices;
among non-water cells the built-up test precedes the vegetation tests;
vegetation splits into Forest vs. Agriculture by the secondary NDVI
threshold; cells passing no threshold, or invalid cells, are Unclassified. -/
theorem classifyCell_precedence (cfg : ClassifierConfig) (c : SpectralCell)
    (hvalid : c.valid = true) :
    (cfg.ndwiWater ≤ ndwi c → classifyCell cfg c = .water) ∧
    (ndwi c < cfg.ndwiWater → cfg.ndbiBuilt ≤ ndbi c →
      classifyCell cfg c = .infrastructure) ∧
    (ndwi c < cfg.ndwiWater → ndbi c < cfg.ndbiBuilt → cfg.ndviForest ≤ ndvi c →
      classifyCell cfg c = .forest) ∧
    (ndwi c < cfg.ndwiWater → ndbi c < cfg.ndbiBuilt → ndvi c < cfg.ndviForest →
      cfg.ndviVeg ≤ ndvi c → classifyCell cfg c = .agriculture) ∧
    (ndwi c < cfg.ndwiWater → ndbi c < cfg.ndbiBuilt → ndvi c < cfg.ndviForest →
      ndvi c < cfg.ndviVeg → classifyCell cfg c = .unclassified) ∧
    (∀ c2 : SpectralCell, c2.valid = false → classifyCell cfg c2 = .unclassified) := by
  refine ⟨?_, ?_, ?_, ?_, ?_, ?_⟩
  · intro h
    unfold classifyCell
    rw [if_neg (by simp [hvalid]), if_pos h]
  · intro hw hb
    unfold classifyCell
    rw [if_neg (by simp [hvalid]), if_neg (not_le.mpr hw), if_pos hb]
  · intro hw hb hf
    unfold classifyCell
    rw [if_neg (by simp [hvalid]), if_neg (not_le.mpr hw), if_neg (not_le.mpr hb), if_pos hf]
  · intro hw hb hf ha
    unfold classifyCell
    rw [if_neg (by simp [hvalid]), if_neg (not_le.mpr hw), if_neg (not_le.mpr hb),
      if_neg (not_le.mpr hf), if_pos ha]
  · intro hw hb hf ha
    unfold classifyCell
    rw [if_neg (by simp [hvalid]), if_neg (not_le.mpr hw), if_neg (not_le.mpr hb),
      if_neg (not_le.mpr hf), if_neg (not_le.mpr ha)]
  · intro c2 h2
    unfold classifyCell
    rw [if_pos h2]

/-- Witness for C5: a concrete valid cell that is water-positive and also
vegetation-positive is classified Water (precedence), via the theorem. -/
theorem classifyCell_precedence_witness :
    classifyCell ⟨0, 0, 1/5, 2/5⟩ ⟨1/10, 6/10, 3/10, 2/10, 1/10, true⟩
      = LandCoverClass.water :=
  (classifyCell_precedence ⟨0, 0, 1/5, 2/5⟩ ⟨1/10, 6/10, 3/10, 2/10, 1/10, true⟩
    rfl).1 (by norm_num [ndwi])

/-- The cell of a grid at row `i`, column `j`, when present. -/
def cellAt (grid : List (List α)) (i j : ℕ) : Option α :=
  (grid[i]?).bind (fun row => row[j]?)

/-- Modelled from the spec: the Spectral Classifier over a whole composite —
a pure, order-independent map over cells (§4.3, §5). -/
def classifyRaster (cfg : ClassifierConfig) (grid : List (List SpectralCell)) :
    List (List LandCoverClass) :=
  grid.map (fun row => row.map (classifyCell cfg))

lemma cellAt_map (f : α → β) (grid : List (List α)) (i j : ℕ) :
    cellAt (grid.map (fun row => row.map f)) i j = (cellAt grid i j).map f := by
  unfold cellAt
  rw [List.getElem?_map]
  cases grid[i]? with
  | none => rfl
  | some row => simp [List.getElem?_map]

/-! ## Vectorizer and Area Aggregator (C3, C8) -/

/-- A vector feature: its land-cover class tag and its area. -/
structure Feature where
  cls : LandCoverClass
  area_sq_m : ℚ
  deriving DecidableEq, Repr

/-- A per-class feature collection. -/
abbrev FeatureCollection := List Feature

/-- Modelled from the spec: the Vectorizer's configuration (§4.4) — the area
of one raster cell and the minimum region size (in cells) below which a
region is dropped as noise. -/
structure VectorizerConfig where
  cellAreaSqM : ℚ
  minRegionCells : ℕ
  deriving DecidableEq, Repr

/-- Lengths of the maximal runs of class `cls` in a row, accumulating the
length `acc` of the run in progress.  Runs model the Vectorizer's grouping
of connected same-class cells within a row. -/
def classRuns (cls : LandCoverClass) : List LandCoverClass → ℕ → List ℕ
  | [], acc => if acc = 0 then [] else [acc]
  | x :: xs, acc =>
    if x = cls then classRuns cls xs (acc + 1)
    else if acc = 0 then classRuns cls xs 0
    else acc :: classRuns cls xs 0

/-- Modelled from the spec: the Vectorizer (§4.4) for one class and one row —
each maximal run of same-class cells becomes one feature tagged with the
class, with area `cellAreaSqM · run length`; runs below the minimum-region
floor are dropped as noise. -/
def rowRegions (vcfg : VectorizerConfig) (cls : LandCoverClass)
    (row : List LandCoverClass) : FeatureCollection :=
  ((classRuns cls row 0).filter (fun len => vcfg.minRegionCells ≤ len)).map
    (fun len : ℕ => ⟨cls, vcfg.cellAreaSqM * (len : ℚ)⟩)

/-- Modelled from the spec: the Vectorizer for one class over the whole
classified raster. -/
def vectorizeClass (vcfg : VectorizerConfig) (cls : LandCoverClass)
    (raster : List (List LandCoverClass)) : FeatureCollection :=
  raster.flatMap (rowRegions vcfg cls)

/-- The class key strings used in the `layers` mapping of the result. -/
def classKey : LandCoverClass → String
  | .water => "water"
  | .agriculture => "agriculture"
  | .forest => "forest"
  | .infrastructure => "infrastructure"
  | .unclassified => "unclassified"

/-- Modelled from the spec: the `layers` mapping of the result — one
feature collection per class, all four class keys always present (§4.4,
§6). -/
def mkLayers (vcfg : VectorizerConfig) (raster : List (List LandCoverClass)) :
    List (String × FeatureCollection) :=
  [("water", vectorizeClass vcfg .water raster),
   ("agriculture", vectorizeClass vcfg .agriculture raster),
   ("forest", vectorizeClass vcfg .forest raster),
   ("infrastructure", vectorizeClass vcfg .infrastructure raster)]

/-- Total area of the features of one collection. -/
def layerArea (fc : FeatureCollection) : ℚ :=
  (fc.map (fun f => f.area_sq_m)).sum

/-- Modelled from the spec: the AnalysisSummary (§3) — the authoritative
total from the AOI geometry and one area per class. -/
structure AnalysisSummary where
  name : String
  total_area_sq_m : ℝ
  water_area_sq_m : ℚ
  agriculture_area_sq_m : ℚ
  forest_area_sq_m : ℚ
  infrastructure_area_sq_m : ℚ

/-- Modelled from the spec: the Area Aggregator (§4.5) — per-class areas by
summing each class's feature areas, total from the AOI geometry. -/
def mkSummary (name : String) (total : ℝ) (vcfg : VectorizerConfig)
    (raster : List (List LandCoverClass)) : AnalysisSummary :=
  ⟨name, total,
    layerArea (vectorizeClass vcfg .water raster),
    layerArea (vectorizeClass vcfg .agriculture raster),
    layerArea (vectorizeClass vcfg .forest raster),
    layerArea (vectorizeClass vcfg .infrastructure raster)⟩

/-- Modelled from the spec: the AnalysisResult returned to callers (§3). -/
structure AnalysisResult where
  summary : AnalysisSummary
  layers : List (String × FeatureCollection)

lemma classRuns_sum (cls : LandCoverClass) :
    ∀ (row : List LandCoverClass) (acc : ℕ),
      (classRuns cls row acc).sum = acc + row.countP (fun x => x = cls)
  | [], acc => by
    unfold classRuns
    split_ifs with h <;> simp [h, List.countP_nil]
  | x :: xs, acc => by
    unfold classRuns
    rw [List.countP_cons]
    split_ifs <;>
      simp_all [classRuns_sum cls xs (acc + 1), classRuns_sum cls xs 0] <;>
      omega

lemma classRuns_pos (cls : LandCoverClass) :
    ∀ (row : List LandCoverClass) (acc : ℕ), ∀ len ∈ classRuns cls row acc, 0 < len
  | [], acc => by
    unfold classRuns
    split_ifs with h <;> simp <;> omega
  | x :: xs, acc => by
    unfold classRuns
    split_ifs with h1 h2
    · exact classRuns_pos cls xs (acc + 1)
    · exact classRuns_pos cls xs 0
    · intro len hlen
      rcases List.mem_cons.mp hlen with rfl | hmem
      · omega
      · exact classRuns_pos cls xs 0 len hmem

lemma classRuns_of_countP_zero (cls : LandCoverClass) (row : List LandCoverClass)
    (h : row.countP (fun x => x = cls) = 0) : classRuns cls row 0 = [] := by
  have hsum : (classRuns cls row 0).sum = 0 := by
    rw [classRuns_sum]
    omega
  cases hruns : classRuns cls row 0 with
  | nil => rfl
  | cons a t =>
    exfalso
    have ha : 0 < a :=
      classRuns_pos cls row 0 a (by rw [hruns]; exact List.mem_cons_self a t)
    rw [hruns, List.sum_cons] at hsum
    omega

/-! ## Composite Fetcher and Analysis Orchestrator (C6, C7) -/

/-- Modelled from the spec: a satellite scene with its cloud-fraction
metric and per-band raster data (§4.2, §6). -/
structure Scene where
  cloudFraction : ℚ
  cells : List (List SpectralCell)
  deriving DecidableEq, Repr

/-- The scenes whose cloud fraction does not exceed the threshold. -/
def qualifyingScenes (scenes : List Scene) (maxCloud : ℚ) : List Scene :=
  scenes.filter (fun s => s.cloudFraction ≤ maxCloud)

/-- Median of a list of band values: middle element of the sorted list. -/
def bandMedian (vals : List ℚ) : ℚ :=
  (vals.mergeSort (fun a b => a ≤ b)).getD (vals.length / 2) 0

/-- The cells available at position (i, j) across a list of scenes. -/
def cellsAt (scenes : List Scene) (i j : ℕ) : List SpectralCell :=
  scenes.filterMap (fun s => cellAt s.cells i j)

/-- Per-pixel median cell across scenes: each band reduced by the median;
the composite cell is valid when it is valid in at least one scene. -/
def medianCell (cs : List SpectralCell) : SpectralCell :=
  ⟨bandMedian (cs.map (fun c => c.red)),
   bandMedian (cs.map (fun c => c.green)),
   bandMedian (cs.map (fun c => c.blue)),
   bandMedian (cs.map (fun c => c.nir)),
   bandMedian (cs.map (fun c => c.swir)),
   cs.any (fun c => c.valid)⟩

/-- Modelled from the spec: reduction of the qualifying scenes to a single
composite by a per-pixel median (§4.2), on the grid of the first scene. -/
def medianComposite (scenes : List Scene) : List (List SpectralCell) :=
  match scenes with
  | [] => []
  | s0 :: _ =>
    (List.range s0.cells.length).map (fun i =>
      (List.range (s0.cells.getD i []).length).map (fun j =>
        medianCell (cellsAt scenes i j)))

/-- Modelled from the spec: the Composite Fetcher (§4.2) — fails with
`DataUnavailable` when zero qualifying scenes exist. -/
def fetchComposite (scenes : List Scene) (maxCloud : ℚ) :
    Except PipelineError (List (List SpectralCell)) :=
  if (qualifyingScenes scenes maxCloud).isEmpty then
    .error (.dataUnavailable "no qualifying scenes for the AOI and date window")
  else
    .ok (medianComposite (qualifyingScenes scenes maxCloud))

/-- Modelled from the spec: the externally configurable parameters of the
pipeline (§4.2, §4.3, §4.4, §9). -/
structure PipelineConfig where
  classifier : ClassifierConfig
  vectorizer : VectorizerConfig
  maxCloudFraction : ℚ
  deriving DecidableEq, Repr

/-- Modelled from the spec: the Analysis Orchestrator (§4.6) — validation
and geometry, then fetch, then classification, vectorization and
aggregation; each failure aborts the remaining stages and surfaces exactly
one error kind, never a partial result. -/
noncomputable def analyze (pcfg : PipelineConfig) (req : AOIRequest)
    (scenes : List Scene) : Except PipelineError AnalysisResult :=
  match buildAOIGeometry req with
  | .error e => .error e
  | .ok g =>
    match fetchComposite scenes pcfg.maxCloudFraction with
    | .error e => .error e
    | .ok comp =>
      let raster := classifyRaster pcfg.classifier comp
      .ok ⟨mkSummary req.name (totalAreaSqM g) pcfg.vectorizer raster,
           mkLayers pcfg.vectorizer raster⟩

/-- C7: with zero qualifying scenes for the AOI and window, the pipeline
fails with `DataUnavailable`; and on failure the caller receives exactly
one error kind plus a reason — never a partial summary or layers. -/
theorem analyze_dataUnavailable (pcfg : PipelineConfig) (req : AOIRequest)
    (scenes : List Scene) (g : AOIGeometry)
    (hval : buildAOIGeometry req = .ok g)
    (hnone : qualifyingScenes scenes pcfg.maxCloudFraction = []) :
    analyze pcfg req scenes
      = .error (.dataUnavailable "no qualifying scenes for the AOI and date window") ∧
    (∀ e, analyze pcfg req scenes = .error e →
      ∀ res, analyze pcfg req scenes ≠ .ok res) := by
  have hfetch : fetchComposite scenes pcfg.maxCloudFraction
      = .error (.dataUnavailable "no qualifying scenes for the AOI and date window") := by
    unfold fetchComposite
    rw [hnone]
    rfl
  constructor
  · unfold analyze
    rw [hval, hfetch]
  · intro e he res hres
    rw [hres] at he
    cases he

/-- Witness for C7: the example request with an empty scene list yields
`DataUnavailable`. -/
theorem analyze_dataUnavailable_witness :
    analyze ⟨⟨0, 0, 1/5, 2/5⟩, ⟨1, 1⟩, 1⟩ ⟨"TestArea", 17.385, 78.4867, 5000000⟩ []
      = .error (.dataUnavailable "no qualifying scenes for the AOI and date window") :=
  (analyze_dataUnavailable ⟨⟨0, 0, 1/5, 2/5⟩, ⟨1, 1⟩, 1⟩
    ⟨"TestArea", 17.385, 78.4867, 5000000⟩ [] _ buildAOIGeometry_example rfl).1

/-- C6: determinism and cell-locality.  The class of the cell at (i, j)
depends only on that cell of the composite — two composites agreeing there
classify identically there, so internal parallelization over cells cannot
change the output — and the pipeline is a pure function of the request and
the scene set: two runs on equal inputs return equal results. -/
theorem classification_local_deterministic (cfg : ClassifierConfig)
    (g1 g2 : List (List SpectralCell)) (i j : ℕ)
    (hsame : cellAt g1 i j = cellAt g2 i j) :
    cellAt (classifyRaster cfg g1) i j = cellAt (classifyRaster cfg g2) i j ∧
    (∀ (pcfg : PipelineConfig) (req1 req2 : AOIRequest) (s1 s2 : List Scene),
      req1 = req2 → s1 = s2 → analyze pcfg req1 s1 = analyze pcfg req2 s2) := by
  constructor
  · unfold classifyRaster
    rw [cellAt_map, cellAt_map, hsame]
  · intro pcfg req1 req2 s1 s2 hreq hs
    rw [hreq, hs]

/-- Witness for C6: two one-row composites that differ in their second cell
but agree in their first classify their first cell identically. -/
theorem classification_local_deterministic_witness :
    cellAt (classifyRaster ⟨0, 0, 1/5, 2/5⟩
      [[⟨1, 1, 1, 1, 1, true⟩, ⟨2, 2, 2, 2, 2, true⟩]]) 0 0
      = cellAt (classifyRaster ⟨0, 0, 1/5, 2/5⟩
        [[⟨1, 1, 1, 1, 1, true⟩, ⟨3, 3, 3, 3, 3, false⟩]]) 0 0 :=
  (classification_local_deterministic ⟨0, 0, 1/5, 2/5⟩
    [[⟨1, 1, 1, 1, 1, true⟩, ⟨2, 2, 2, 2, 2, true⟩]]
    [[⟨1, 1, 1, 1, 1, true⟩, ⟨3, 3, 3, 3, 3, false⟩]] 0 0 rfl).1

lemma vectorizeClass_cls (vcfg : VectorizerConfig) (cls : LandCoverClass)
    (raster : List (List LandCoverClass)) :
    ∀ f ∈ vectorizeClass vcfg cls raster, f.cls = cls := by
  intro f hf
  unfold vectorizeClass at hf
  rw [List.mem_flatMap] at hf
  obtain ⟨row, _, hrow⟩ := hf
  unfold rowRegions at hrow
  rw [List.mem_map] at hrow
  obtain ⟨len, _, rfl⟩ := hrow
  rfl

lemma vectorizeClass_empty (vcfg : VectorizerConfig) (cls : LandCoverClass)
    (raster : List (List LandCoverClass))
    (h : (raster.map (fun row => row.countP (fun x => x = cls))).sum = 0) :
    vectorizeClass vcfg cls raster = [] := by
  unfold vectorizeClass
  rw [List.flatMap_eq_nil_iff]
  intro row hrow
  have hcount : row.countP (fun x => x = cls) = 0 :=
    List.sum_eq_zero_iff.mp h _ (List.mem_map_of_mem _ hrow)
  unfold rowRegions
  rw [classRuns_of_countP_zero cls row hcount]
  rfl

lemma mkLayers_lookup_classKey (vcfg : VectorizerConfig)
    (raster : List (List LandCoverClass)) (cls : LandCoverClass)
    (hcls : cls ≠ .unclassified) :
    (mkLayers vcfg raster).lookup (classKey cls)
      = some (vectorizeClass vcfg cls raster) := by
  cases cls <;> simp_all [mkLayers, classKey, List.lookup]

lemma mkLayers_tagged (vcfg : VectorizerConfig)
    (raster : List (List LandCoverClass)) (key : String) (fc : FeatureCollection)
    (h : (mkLayers vcfg raster).lookup key = some fc) :
    ∀ f ∈ fc, classKey f.cls = key := by
  have hmem : (key, fc) ∈ mkLayers vcfg raster := by
    obtain ⟨l₁, l₂, hsplit, -⟩ := List.lookup_eq_some_iff.mp h
    rw [hsplit]
    exact List.mem_append_right _ (List.mem_cons_self _ _)
  simp only [mkLayers, List.mem_cons, List.not_mem_nil, or_false] at hmem
  rcases hmem with h1 | h1 | h1 | h1 <;>
    (injection h1 with hk hf
     subst hk
     subst hf
     intro f hf2
     rw [vectorizeClass_cls vcfg _ raster f hf2]
     rfl)

/-- C8: every successful AnalysisResult carries a `layers` mapping with all
four class keys present (a class with no qualifying region yields an empty,
but present, collection), and every feature is tagged with exactly its
layer's class. -/
theorem analyze_layers_complete (pcfg : PipelineConfig) (req : AOIRequest)
    (scenes : List Scene) (res : AnalysisResult)
    (hok : analyze pcfg req scenes = .ok res) :
    ∃ raster,
      res.layers = mkLayers pcfg.vectorizer raster ∧
      (res.layers.lookup "water").isSome ∧
      (res.layers.lookup "agriculture").isSome ∧
      (res.layers.lookup "forest").isSome ∧
      (res.layers.lookup "infrastructure").isSome ∧
      (∀ key fc, res.layers.lookup key = some fc → ∀ f ∈ fc, classKey f.cls = key) ∧
      (∀ cls : LandCoverClass, cls ≠ .unclassified →
        (raster.map (fun row => row.countP (fun x => x = cls))).sum = 0 →
        res.layers.lookup (classKey cls) = some []) := by
  unfold analyze at hok
  cases hb : buildAOIGeometry req with
  | error e =>
    rw [hb] at hok
    cases hok
  | ok g =>
    rw [hb] at hok
    cases hf : fetchComposite scenes pcfg.maxCloudFraction with
    | error e =>
      rw [hf] at hok
      cases hok
    | ok comp =>
      rw [hf] at hok
      injection hok with h
      subst h
      refine ⟨classifyRaster pcfg.classifier comp, rfl, ?_, ?_, ?_, ?_, ?_, ?_⟩ <;>
        dsimp only
      · rw [show ("water" : String) = classKey LandCoverClass.water from rfl,
          mkLayers_lookup_classKey pcfg.vectorizer _ LandCoverClass.water (by simp)]
        rfl
      · rw [show ("agriculture" : String) = classKey LandCoverClass.agriculture from rfl,
          mkLayers_lookup_classKey pcfg.vectorizer _ LandCoverClass.agriculture (by simp)]
        rfl
      · rw [show ("forest" : String) = classKey LandCoverClass.forest from rfl,
          mkLayers_lookup_classKey pcfg.vectorizer _ LandCoverClass.forest (by simp)]
        rfl
      · rw [show ("infrastructure" : String) = classKey LandCoverClass.infrastructure from rfl,
          mkLayers_lookup_classKey pcfg.vectorizer _ LandCoverClass.infrastructure (by simp)]
        rfl
      · exact mkLayers_tagged pcfg.vectorizer _
      · intro cls hcls hzero
        rw [mkLayers_lookup_classKey pcfg.vectorizer _ cls hcls,
          vectorizeClass_empty pcfg.vectorizer cls _ hzero]

/-- A concrete one-cell scene used as a running example. -/
def exampleScene : Scene := ⟨0, [[⟨1, 6, 3, 2, 1, true⟩]]⟩

/-- The classified raster of the example one-scene run. -/
def exampleRaster : List (List LandCoverClass) :=
  classifyRaster ⟨0, 0, 1/5, 2/5⟩ (medianComposite [exampleScene])

/-- The result of the example one-scene analysis run. -/
noncomputable def exampleResult : AnalysisResult :=
  ⟨mkSummary "TestArea"
      (totalAreaSqM ⟨vertsFrom (aoiRadius 5000000) numBearings 0 (numBearings + 1)⟩)
      ⟨1, 1⟩ exampleRaster,
    mkLayers ⟨1, 1⟩ exampleRaster⟩

lemma analyze_example_ok :
    analyze ⟨⟨0, 0, 1/5, 2/5⟩, ⟨1, 1⟩, 1⟩ ⟨"TestArea", 17.385, 78.4867, 5000000⟩
      [exampleScene] = .ok exampleResult := by
  have hfetch : fetchComposite [exampleScene] 1 = .ok (medianComposite [exampleScene]) := rfl
  unfold analyze
  rw [buildAOIGeometry_example, hfetch]
  rfl

/-- Witness for C8: the example one-scene run succeeds and its layers have
all four keys, correct tags, and empty collections for absent classes. -/
theorem analyze_layers_complete_witness :
    ∃ raster,
      exampleResult.layers = mkLayers ⟨1, 1⟩ raster ∧
      (exampleResult.layers.lookup "water").isSome ∧
      (exampleResult.layers.lookup "agriculture").isSome ∧
      (exampleResult.layers.lookup "forest").isSome ∧
      (exampleResult.layers.lookup "infrastructure").isSome ∧
      (∀ key fc, exampleResult.layers.lookup key = some fc →
        ∀ f ∈ fc, classKey f.cls = key) ∧
      (∀ cls : LandCoverClass, cls ≠ .unclassified →
        (raster.map (fun row => row.countP (fun x => x = cls))).sum = 0 →
        exampleResult.layers.lookup (classKey cls) = some []) :=
  analyze_layers_complete ⟨⟨0, 0, 1/5, 2/5⟩, ⟨1, 1⟩, 1⟩
    ⟨"TestArea", 17.385, 78.4867, 5000000⟩ [exampleScene] exampleResult
    analyze_example_ok

/-! ## Coverage invariant (C3) -/

lemma sum_filter_le (p : ℕ → Bool) : ∀ l : List ℕ, (l.filter p).sum ≤ l.sum
  | [] => Nat.le_refl 0
  | x :: xs => by
    rw [List.filter_cons]
    split_ifs
    · rw [List.sum_cons, List.sum_cons]
      exact Nat.add_le_add_left (sum_filter_le p xs) x
    · rw [List.sum_cons]
      exact le_trans (sum_filter_le p xs) (Nat.le_add_left _ _)

lemma rowRegions_area_le (vcfg : VectorizerConfig) (cls : LandCoverClass)
    (row : List LandCoverClass) (hA : 0 ≤ vcfg.cellAreaSqM) :
    layerArea (rowRegions vcfg cls row)
      ≤ vcfg.cellAreaSqM * (row.countP (fun x => x = cls) : ℚ) := by
  unfold layerArea rowRegions
  rw [List.map_map]
  have hmap : (fun f => f.area_sq_m) ∘
      (fun len : ℕ => (⟨cls, vcfg.cellAreaSqM * (len : ℚ)⟩ : Feature))
      = fun len : ℕ => vcfg.cellAreaSqM * (len : ℚ) := rfl
  rw [hmap, List.sum_map_mul_left, ← Nat.cast_list_sum]
  apply mul_le_mul_of_nonneg_left _ hA
  have hle : ((classRuns cls row 0).filter (fun len => vcfg.minRegionCells ≤ len)).sum
      ≤ row.countP (fun x => x = cls) := by
    have h1 := sum_filter_le (fun len => vcfg.minRegionCells ≤ len) (classRuns cls row 0)
    have h2 := classRuns_sum cls row 0
    omega
  exact_mod_cast hle

lemma vectorizeClass_area_le (vcfg : VectorizerConfig) (cls : LandCoverClass)
    (hA : 0 ≤ vcfg.cellAreaSqM) :
    ∀ raster, layerArea (vectorizeClass vcfg cls raster)
      ≤ vcfg.cellAreaSqM *
        ((((raster.map (fun row => row.countP (fun x => x = cls))).sum : ℕ)) : ℚ)
  | [] => by simp [vectorizeClass, layerArea]
  | row :: rest => by
    have h1 := rowRegions_area_le vcfg cls row hA
    have h2 := vectorizeClass_area_le vcfg cls hA rest
    unfold vectorizeClass at h2 ⊢
    rw [List.flatMap_cons]
    unfold layerArea at h1 h2 ⊢
    rw [List.map_append, List.sum_append]
    have hsum : ((((row :: rest).map (fun r => r.countP (fun x => x = cls))).sum : ℕ) : ℚ)
        = (row.countP (fun x => x = cls) : ℚ)
          + (((rest.map (fun r => r.countP (fun x => x = cls))).sum : ℕ) : ℚ) := by
      rw [List.map_cons, List.sum_cons]
      push_cast
      ring
    rw [hsum, mul_add]
    exact add_le_add h1 h2

lemma four_counts_le_length : ∀ row : List LandCoverClass,
    row.countP (fun x => x = LandCoverClass.water)
      + row.countP (fun x => x = LandCoverClass.agriculture)
      + row.countP (fun x => x = LandCoverClass.forest)
      + row.countP (fun x => x = LandCoverClass.infrastructure) ≤ row.length
  | [] => by simp
  | x :: xs => by
    have ih := four_counts_le_length xs
    simp only [List.countP_cons, List.length_cons]
    cases x <;> simp <;> omega

lemma four_counts_sum_le : ∀ raster : List (List LandCoverClass),
    (raster.map (fun row => row.countP (fun x => x = LandCoverClass.water))).sum
      + (raster.map (fun row => row.countP (fun x => x = LandCoverClass.agriculture))).sum
      + (raster.map (fun row => row.countP (fun x => x = LandCoverClass.forest))).sum
      + (raster.map (fun row => row.countP (fun x => x = LandCoverClass.infrastructure))).sum
      ≤ (raster.map (fun row => row.length)).sum
  | [] => by simp
  | row :: rest => by
    have ih := four_counts_sum_le rest
    have hrow := four_counts_le_length row
    simp only [List.map_cons, List.sum_cons]
    omega

/-- C3: coverage invariant — for every summary assembled by the Area
Aggregator over a classified raster whose cells lie within the AOI (their
combined cell area is at most the AOI's total area), the sum of the four
per-class areas is at most `total_area_sq_m`. -/
theorem summary_class_areas_le_total (name : String) (total : ℝ)
    (vcfg : VectorizerConfig) (raster : List (List LandCoverClass))
    (hA : 0 ≤ vcfg.cellAreaSqM)
    (hclip : (vcfg.cellAreaSqM : ℝ) * ((raster.map (fun row => row.length)).sum : ℕ) ≤ total) :
    (((mkSummary name total vcfg raster).water_area_sq_m
      + (mkSummary name total vcfg raster).agriculture_area_sq_m
      + (mkSummary name total vcfg raster).forest_area_sq_m
      + (mkSummary name total vcfg raster).infrastructure_area_sq_m : ℚ) : ℝ)
      ≤ (mkSummary name total vcfg raster).total_area_sq_m := by
  have hw := vectorizeClass_area_le vcfg .water hA raster
  have ha := vectorizeClass_area_le vcfg .agriculture hA raster
  have hf := vectorizeClass_area_le vcfg .forest hA raster
  have hi := vectorizeClass_area_le vcfg .infrastructure hA raster
  have hcounts := four_counts_sum_le raster
  have hsumQ : (mkSummary name total vcfg raster).water_area_sq_m
      + (mkSummary name total vcfg raster).agriculture_area_sq_m
      + (mkSummary name total vcfg raster).forest_area_sq_m
      + (mkSummary name total vcfg raster).infrastructure_area_sq_m
      ≤ vcfg.cellAreaSqM * (((raster.map (fun row => row.length)).sum : ℕ) : ℚ) := by
    show layerArea (vectorizeClass vcfg .water raster)
      + layerArea (vectorizeClass vcfg .agriculture raster)
      + layerArea (vectorizeClass vcfg .forest raster)
      + layerArea (vectorizeClass vcfg .infrastructure raster) ≤ _
    have hcountsQ : (((raster.map (fun row =>
          row.countP (fun x => x = LandCoverClass.water))).sum : ℕ) : ℚ)
        + ((raster.map (fun row =>
            row.countP (fun x => x = LandCoverClass.agriculture))).sum : ℕ)
        + ((raster.map (fun row =>
            row.countP (fun x => x = LandCoverClass.forest))).sum : ℕ)
        + ((raster.map (fun row =>
            row.countP (fun x => x = LandCoverClass.infrastructure))).sum : ℕ)
        ≤ (((raster.map (fun row => row.length)).sum : ℕ) : ℚ) := by
      exact_mod_cast hcounts
    have hstep := mul_le_mul_of_nonneg_left hcountsQ hA
    linarith [hw, ha, hf, hi, hstep]
  show (((_ : ℚ)) : ℝ) ≤ total
  calc (((mkSummary name total vcfg raster).water_area_sq_m
      + (mkSummary name total vcfg raster).agriculture_area_sq_m
      + (mkSummary name total vcfg raster).forest_area_sq_m
      + (mkSummary name total vcfg raster).infrastructure_area_sq_m : ℚ) : ℝ)
      ≤ ((vcfg.cellAreaSqM * (((raster.map (fun row => row.length)).sum : ℕ) : ℚ) : ℚ) : ℝ) := by
        exact_mod_cast hsumQ
    _ = (vcfg.cellAreaSqM : ℝ) * ((raster.map (fun row => row.length)).sum : ℕ) := by
        rw [Rat.cast_mul, Rat.cast_natCast]
    _ ≤ total := hclip

/-- Witness for C3 on a concrete two-cell raster with unit cell area and a
total of 10 m². -/
theorem summary_class_areas_le_total_witness :
    (((mkSummary "w" (10 : ℝ) ⟨1, 1⟩ [[LandCoverClass.water, LandCoverClass.forest]]).water_area_sq_m
      + (mkSummary "w" (10 : ℝ) ⟨1, 1⟩ [[LandCoverClass.water, LandCoverClass.forest]]).agriculture_area_sq_m
      + (mkSummary "w" (10 : ℝ) ⟨1, 1⟩ [[LandCoverClass.water, LandCoverClass.forest]]).forest_area_sq_m
      + (mkSummary "w" (10 : ℝ) ⟨1, 1⟩ [[LandCoverClass.water, LandCoverClass.forest]]).infrastructure_area_sq_m : ℚ) : ℝ)
      ≤ (mkSummary "w" (10 : ℝ) ⟨1, 1⟩ [[LandCoverClass.water, LandCoverClass.forest]]).total_area_sq_m :=
  summary_class_areas_le_total "w" 10 ⟨1, 1⟩ [[LandCoverClass.water, LandCoverClass.forest]]
    (by norm_num) (by norm_num)

end AOIMapping
